import Mathlib

/-!
Verification of the SCAM-KILLER detection core (watchtower.py, deep_analyzer.py).

Shallow embedding conventions:
* Python strings are Lean `String`; all operations are implemented over the
  underlying `List Char` (`String.data`) so that everything reduces in the kernel.
* Python `str.lower()` is modelled for the ASCII range (all configured brand
  labels, whitelists and candidate FQDNs are ASCII; non-ASCII characters are
  kept unchanged, as `str.lower` does for the Thai entries in the config).
* Python integers are `Int`, Python floats in the Judge are modelled as `Rat`
  (the source only adds/multiplies decimal literals and takes `min`).
* Network effects (DNS resolution, the Playwright/HTTP Layer-2 detective) are
  passed in as explicit parameters; everything downstream of them is the
  source's own pure logic.
-/

namespace Scamper

/-- ASCII lowercase of one character (identity outside A..Z, as in `str.lower`
for the characters occurring in this code base). -/
def lowerChar (c : Char) : Char :=
  if 'A' ≤ c && c ≤ 'Z' then Char.ofNat (c.toNat + 32) else c

/-- Python `s.lower()` (ASCII model). -/
def pyLower (s : String) : String := String.mk (s.data.map lowerChar)

def isPySpace (c : Char) : Bool :=
  c == ' ' || c == '\t' || c == '\n' || c == '\r' || c == '\x0b' || c == '\x0c'

/-- Python `s.strip()`. -/
def pyStrip (s : String) : String :=
  String.mk (((s.data.dropWhile isPySpace).reverse.dropWhile isPySpace).reverse)

/-- `needle` is a leading segment of `hay` (chars). -/
def charsLeads : List Char → List Char → Bool
  | [], _ => true
  | _ :: _, [] => false
  | a :: as, b :: bs => a == b && charsLeads as bs

/-- `needle` occurs contiguously inside `hay` (chars). -/
def charsHasSub (needle : List Char) : List Char → Bool
  | [] => needle.isEmpty
  | c :: t => charsLeads needle (c :: t) || charsHasSub needle t

/-- Python `sub in hay` for strings. -/
def pyContains (hay sub : String) : Bool := charsHasSub sub.data hay.data

/-- Python `hay.startswith(pre)`. -/
def pyStarts (hay pre : String) : Bool := charsLeads pre.data hay.data

/-- Python `hay.endswith(suf)`. -/
def pyEnds (hay suf : String) : Bool := charsLeads suf.data.reverse hay.data.reverse

/-- Python `s.split(sep)` on a one-character separator (keeps empty parts). -/
def splitChars (sep : Char) : List Char → List (List Char)
  | [] => [[]]
  | c :: cs =>
    let r := splitChars sep cs
    if c == sep then [] :: r
    else
      match r with
      | h :: t => (c :: h) :: t
      | [] => [[c]]

def pySplit (s : String) (sep : Char) : List String :=
  (splitChars sep s.data).map String.mk

/-- Python `sep.join(parts)`. -/
def joinSep (sep : String) : List String → String
  | [] => ""
  | [x] => x
  | x :: xs => x ++ sep ++ joinSep sep xs

def isDigitChar (c : Char) : Bool := '0' ≤ c && c ≤ '9'

/-- All position decompositions of a list: `(pre, c, post)` with
`pre ++ c :: post = l`, in left-to-right order (models `enumerate`). -/
def splits : List Char → List (List Char × Char × List Char)
  | [] => []
  | c :: cs => ([], c, cs) :: (splits cs).map (fun q => (c :: q.1, q.2.1, q.2.2))

/-- All adjacent-pair decompositions: `(pre, c1, c2, post)` with
`pre ++ c1 :: c2 :: post = l`. -/
def splits2 : List Char → List (List Char × Char × Char × List Char)
  | [] => []
  | [_] => []
  | c :: d :: cs =>
    ([], c, d, cs) :: (splits2 (d :: cs)).map (fun q => (c :: q.1, q.2.1, q.2.2.1, q.2.2.2))

/-! ## DomainFuzzer (watchtower.py) -/

/-- `DomainFuzzer.QWERTY` adjacency table (`dict.get(c, '')` model). -/
def QWERTY (c : Char) : String :=
  match c with
  | '1' => "2q" | '2' => "3wq1" | '3' => "4ew2" | '4' => "5re3" | '5' => "6tr4"
  | '6' => "7yt5" | '7' => "8uy6" | '8' => "9iu7" | '9' => "0oi8" | '0' => "po9"
  | 'q' => "12wa" | 'w' => "3esaq2" | 'e' => "4rdsw3" | 'r' => "5tfde4" | 't' => "6ygfr5"
  | 'y' => "7uhgt6" | 'u' => "8ijhy7" | 'i' => "9okju8" | 'o' => "0plki9" | 'p' => "lo0"
  | 'a' => "qwsz" | 's' => "edxzaw" | 'd' => "rfcxse" | 'f' => "tgvcdr" | 'g' => "yhbvft"
  | 'h' => "ujnbgy" | 'j' => "ikmnhu" | 'k' => "olmji" | 'l' => "kop"
  | 'z' => "asx" | 'x' => "zsdc" | 'c' => "xdfv" | 'v' => "cfgb" | 'b' => "vghn"
  | 'n' => "bhjm" | 'm' => "njk"
  | _ => ""

/-- `DomainFuzzer.HOMOGLYPHS` (`dict.get(key, [])` model; keys are the 1- and
2-character strings of the source table). -/
def HOMOGLYPHS (k : String) : List String :=
  match k with
  | "0" => ["o"]
  | "1" => ["l", "i"]
  | "3" => ["8"]
  | "6" => ["9"]
  | "8" => ["3"]
  | "9" => ["6"]
  | "a" => ["4", "@"]
  | "b" => ["d", "6"]
  | "c" => ["e", "("]
  | "d" => ["b", "cl"]
  | "e" => ["3", "c"]
  | "g" => ["q", "9"]
  | "h" => ["n"]
  | "i" => ["1", "l", "!"]
  | "k" => ["lc"]
  | "l" => ["1", "i", "|"]
  | "m" => ["n", "nn", "rn"]
  | "n" => ["m", "r"]
  | "o" => ["0"]
  | "q" => ["g"]
  | "r" => ["n"]
  | "s" => ["5", "$"]
  | "t" => ["7", "+"]
  | "u" => ["v"]
  | "v" => ["u"]
  | "w" => ["vv"]
  | "rn" => ["m"]
  | "cl" => ["d"]
  | _ => []

/-- `DomainFuzzer.ADDITIONS`. -/
def ADDITIONS : List String :=
  ["secure", "login", "signin", "verify", "update", "confirm",
   "account", "online", "mobile", "app", "auth", "portal",
   "service", "support", "help", "official", "real", "true",
   "thailand", "thai", "th", "bkk"]

def masks : List Nat := [1, 2, 4, 8, 16, 32, 64, 128]

/-- The domain-legal alphabet used by `_bitsquatting`. -/
def legalChars : List Char := "abcdefghijklmnopqrstuvwxyz0123456789-".data

/-- `DomainFuzzer._bitsquatting`: single-bit flips kept only inside the legal
alphabet. -/
def bitsquatting (d : String) : List String :=
  (splits d.data).flatMap fun q =>
    masks.filterMap fun m =>
      let b := Char.ofNat (q.2.1.toNat ^^^ m)
      if legalChars.contains b then some (String.mk (q.1 ++ b :: q.2.2)) else none

/-- `DomainFuzzer._homoglyph`: 1-char substitutions, then 2-char substitutions. -/
def homoglyph (d : String) : List String :=
  ((splits d.data).flatMap fun q =>
    (HOMOGLYPHS (String.mk [q.2.1])).map fun g => String.mk (q.1 ++ g.data ++ q.2.2))
  ++ ((splits2 d.data).flatMap fun q =>
    (HOMOGLYPHS (String.mk [q.2.1, q.2.2.1])).map fun g =>
      String.mk (q.1 ++ g.data ++ q.2.2.2))

/-- `DomainFuzzer._hyphenation`: a hyphen at every interior position. -/
def hyphenation (d : String) : List String :=
  (splits d.data).filterMap fun q =>
    if q.1.isEmpty then none else some (String.mk (q.1 ++ '-' :: q.2.1 :: q.2.2))

/-- `DomainFuzzer._insertion`: each QWERTY neighbor before and after the anchor. -/
def insertion (d : String) : List String :=
  (splits d.data).flatMap fun q =>
    (QWERTY q.2.1).data.flatMap fun ins =>
      [String.mk (q.1 ++ ins :: q.2.1 :: q.2.2), String.mk (q.1 ++ q.2.1 :: ins :: q.2.2)]

/-- `DomainFuzzer._omission`: delete each position. -/
def omission (d : String) : List String :=
  (splits d.data).map fun q => String.mk (q.1 ++ q.2.2)

/-- `DomainFuzzer._repetition`: double each character. -/
def repetition (d : String) : List String :=
  (splits d.data).map fun q => String.mk (q.1 ++ q.2.1 :: q.2.1 :: q.2.2)

/-- `DomainFuzzer._replacement`: each QWERTY neighbor replaces the character. -/
def replacement (d : String) : List String :=
  (splits d.data).flatMap fun q =>
    (QWERTY q.2.1).data.map fun r => String.mk (q.1 ++ r :: q.2.2)

/-- `DomainFuzzer._transposition`: swap each adjacent pair. -/
def transposition (d : String) : List String :=
  (splits2 d.data).map fun q => String.mk (q.1 ++ q.2.2.1 :: q.2.1 :: q.2.2.2)

def vowels : List Char := ['a', 'e', 'i', 'o', 'u']

/-- `DomainFuzzer._vowel_swap`: replace each vowel by every other vowel. -/
def vowelSwap (d : String) : List String :=
  (splits d.data).flatMap fun q =>
    if vowels.contains q.2.1 then
      (vowels.filter (fun v => !(v == q.2.1))).map fun v => String.mk (q.1 ++ v :: q.2.2)
    else []

/-- `DomainFuzzer._addition`: phishing words glued on both sides. -/
def additionGen (d : String) : List String :=
  ADDITIONS.flatMap fun w => [w ++ d, d ++ w, w ++ "-" ++ d, d ++ "-" ++ w]

/-- `DomainFuzzer.__init__`: `domain.lower().strip()`. -/
def fuzzTarget (s : String) : String := pyStrip (pyLower s)

/-- The `(domain, fuzzer_type)` pairs emitted by the ten generators, in the
fixed order of `generate_all`. -/
def generatedPairs (dom : String) : List (String × String) :=
  (bitsquatting dom).map (fun v => (v, "bitsquatting"))
  ++ (homoglyph dom).map (fun v => (v, "homoglyph"))
  ++ (hyphenation dom).map (fun v => (v, "hyphenation"))
  ++ (insertion dom).map (fun v => (v, "insertion"))
  ++ (omission dom).map (fun v => (v, "omission"))
  ++ (repetition dom).map (fun v => (v, "repetition"))
  ++ (replacement dom).map (fun v => (v, "replacement"))
  ++ (transposition dom).map (fun v => (v, "transposition"))
  ++ (vowelSwap dom).map (fun v => (v, "vowel-swap"))
  ++ (additionGen dom).map (fun v => (v, "addition"))

/-- `DomainFuzzer.generate_all`: the Python method collects the pairs into a
`set`; we keep the generation-ordered list (possibly with duplicates), whose
membership is exactly the membership of that set.  The filter is the source's
`if domain and domain != self.domain`. -/
def generateAll (d : String) : List (String × String) :=
  let dom := fuzzTarget d
  (generatedPairs dom).filter fun p => !(p.1 == "") && !(p.1 == dom)

/-! ## TargetConfig (watchtower.py) -/

namespace TargetConfig

def thai_banks : List String :=
  ["kbank", "kasikorn", "kasikornbank",
   "scb", "scbeasy", "siamcommercial",
   "krungthai", "ktb", "krungthaibank",
   "bangkokbank", "bbl",
   "krungsri", "bay",
   "ttb", "tmbbank",
   "gsb",
   "uob", "cimb", "lhbank"]

def thai_gov : List String :=
  ["paotang", "thaichana", "เราชนะ",
   "promptpay", "baac"]

def thai_ewallet : List String :=
  ["truemoney", "truewallet",
   "linepay", "rabbitlinepay",
   "shopeepay", "airpay", "bluepay"]

def whitelist : List String :=
  ["kasikornbank.com", "kbank.com", "kasikorn.com",
   "scb.co.th", "scbeasy.com",
   "krungthai.com", "ktb.co.th",
   "bangkokbank.com", "bbl.co.th",
   "krungsri.com", "bay.co.th",
   "ttbbank.com", "gsb.or.th",
   "truemoney.com", "truewallet.com",
   "line.me", "linepay.line.me",
   "shopee.co.th", "lazada.co.th",
   "google.com", "microsoft.com", "apple.com"]

def suspicious_tlds : List String :=
  [".xyz", ".top", ".club", ".online", ".site", ".info",
   ".work", ".click", ".link", ".buzz", ".live", ".store",
   ".space", ".fun", ".icu", ".pw", ".cc", ".tk", ".ml",
   ".ga", ".cf", ".gq", ".cam", ".rest", ".monster"]

/-- `TargetConfig.get_all_targets`. -/
def getAllTargets : List String := thai_banks ++ thai_gov ++ thai_ewallet

end TargetConfig

/-! ## PermutationDatabase (watchtower.py)

`_build_database` iterates targets in config order and, for each target,
iterates the Python `set` returned by `generate_all` in an iteration order
the language does not specify.  We therefore parameterise the builder by
`inner : String → List (String × String)`, the per-target iteration sequence;
theorems either hold for every `inner` or constrain it to have the same
members as `generateAll`. -/

/-- A database entry: (variant label, (original target, fuzzer type)). -/
abbrev DBEntry := String × String × String

/-- One step of `_build_database`'s inner loop:
`if domain not in self.permutations: self.permutations[domain] = (target, fuzzer_type)`.
Python dicts preserve insertion order, hence the association list. -/
def insertPerm (db : List DBEntry) (target : String) (p : String × String) : List DBEntry :=
  if db.any (fun e => e.1 == p.1) then db else db ++ [(p.1, target, p.2)]

/-- The inner loop of `_build_database` for one target. -/
def addTarget (db : List DBEntry) (target : String) (pairs : List (String × String)) :
    List DBEntry :=
  pairs.foldl (fun d p => insertPerm d target p) db

/-- `PermutationDatabase._build_database` over `get_all_targets`. -/
def buildDatabase (inner : String → List (String × String)) : List DBEntry :=
  TargetConfig.getAllTargets.foldl (fun db t => addTarget db t (inner t)) []

/-- Python dict access `self.permutations.get(label)`. -/
def dbFind (db : List DBEntry) (label : String) : Option (String × String) :=
  (db.find? (fun e => e.1 == label)).map (fun e => e.2)

/-- The per-part scan of `PermutationDatabase.lookup`: for each part, try the
part itself, then the part concatenated with its right neighbour. -/
def lookupParts (db : List DBEntry) : List String → Option (String × String)
  | [] => none
  | p :: rest =>
    match dbFind db p with
    | some v => some v
    | none =>
      match rest with
      | [] => none
      | q :: _ =>
        match dbFind db (p ++ q) with
        | some v => some v
        | none => lookupParts db rest

/-- `PermutationDatabase.lookup`: parts scan, then the substring scan of every
stored permutation against the dotless name (keys in insertion order). -/
def dbLookup (db : List DBEntry) (domain : String) : Option (String × String) :=
  let parts := pySplit (pyLower domain) '.'
  match lookupParts db parts with
  | some v => some v
  | none =>
    if 2 ≤ parts.length then
      (db.find? (fun e => pyContains (joinSep "." parts.dropLast) e.1)).map (fun e => e.2)
    else none

/-- `PermutationDatabase.contains_target_keyword`: first configured target
occurring as a substring of the lowercased domain. -/
def containsTargetKeyword (domain : String) : Option String :=
  TargetConfig.getAllTargets.find? (fun t => pyContains (pyLower domain) t)

/-! ## Watchtower detection (watchtower.py) -/

/-- The `Detection` dataclass. -/
structure Detection where
  domain : String
  target : String
  fuzzer_type : String
  risk_score : Int
  risk_factors : List String
  detection_time : String
  certificate_issuer : String
  all_domains : List String
deriving DecidableEq, Repr

/-- `LiveStats.record_detection`'s high-risk test (`risk_score >= 70`). -/
def isHighRisk (d : Detection) : Bool := 70 ≤ d.risk_score

/-- `Watchtower._is_whitelisted`. -/
def isWhitelisted (domain : String) : Bool :=
  let dl := pyLower domain
  TargetConfig.whitelist.any (fun safe => dl == safe || pyEnds dl ("." ++ safe))

def securityWords : List String := ["secure", "verify", "login", "update", "confirm", "auth"]

/-- `Watchtower._calculate_risk`.  The sequential `score += … ; factors.append(…)`
statements are flattened into one sum / one concatenation in the source's
trigger order; `target` is accepted (and unused), as in the source. -/
def calculateRisk (domain target fuzzer_type : String) : Int × List String :=
  let domain_lower := pyLower domain
  let base : Int × List String :=
    if fuzzer_type ∈ ["homoglyph", "bitsquatting"] then
      (40, ["High-risk fuzzer: " ++ fuzzer_type])
    else if fuzzer_type ∈ ["addition", "hyphenation"] then
      (30, ["Medium-risk fuzzer: " ++ fuzzer_type])
    else
      (25, ["Typosquatting: " ++ fuzzer_type])
  let tldHit := TargetConfig.suspicious_tlds.find? (fun tld => pyEnds domain_lower tld)
  let hyphHit := 2 ≤ domain_lower.data.count '-'
  let longHit := 30 < domain_lower.data.length
  let secHit := securityWords.find? (fun w => pyContains domain_lower w)
  let digitHit := domain_lower.data.any isDigitChar
  let score := base.1 + (if tldHit.isSome then 25 else 0) + (if hyphHit then 15 else 0)
    + (if longHit then 10 else 0) + (if secHit.isSome then 15 else 0)
    + (if digitHit then 5 else 0)
  let factors := base.2
    ++ (match tldHit with | some tld => ["Suspicious TLD: " ++ tld] | none => [])
    ++ (if hyphHit then ["Multiple hyphens in domain"] else [])
    ++ (if longHit then ["Unusually long domain"] else [])
    ++ (match secHit with | some w => ["Security keyword: " ++ w] | none => [])
    ++ (if digitHit then ["Contains numbers"] else [])
  (min score 100, factors)

/-- `Watchtower._analyze_domain`.  `detection_time` (from `datetime.now()`),
the certificate issuer and the certificate's SAN list are environment inputs
passed as parameters.  In the keyword branch the local `fuzzer_type` is never
bound, so the source's `fuzzer_type if 'fuzzer_type' in dir() else
'keyword-match'` yields `'keyword-match'` there and the looked-up kind in the
database branch. -/
def analyzeDomain (db : List DBEntry) (domain detection_time cert_issuer : String)
    (all_domains : List String) : Option Detection :=
  if isWhitelisted domain then none
  else
    match containsTargetKeyword domain with
    | some target =>
      let sf := calculateRisk domain target "keyword-match"
      some { domain := domain, target := target, fuzzer_type := "keyword-match",
             risk_score := min (sf.1 + 20) 100,
             risk_factors := ("Contains target keyword: " ++ target) :: sf.2,
             detection_time := detection_time, certificate_issuer := cert_issuer,
             all_domains := all_domains }
    | none =>
      match dbLookup db domain with
      | none => none
      | some tf =>
        let sf := calculateRisk domain tf.1 tf.2
        some { domain := domain, target := tf.1, fuzzer_type := tf.2,
               risk_score := sf.1, risk_factors := sf.2,
               detection_time := detection_time, certificate_issuer := cert_issuer,
               all_domains := all_domains }

/-! ## `_certstream_callback`'s SAN loop (watchtower.py)

The `try` block of `_certstream_callback` wraps the whole `for domain in
all_domains` loop; any exception raised while processing one SAN is caught by
the certificate-level `except`, ending that loop.  We model the per-SAN
processing outcome as an `Except` oracle (`_analyze_domain` and the recording
calls are where the source can raise), and track the observable state:
`stats.domains_checked` and the accumulated `detections`. -/

structure CallbackState where
  domains_checked : Nat
  detections : List Detection
deriving DecidableEq, Repr

/-- The wildcard strip `if domain.startswith('*.'): domain = domain[2:]`. -/
def stripWildcard (domain : String) : String :=
  if pyStarts domain "*." then String.mk (domain.data.drop 2) else domain

/-- The SAN loop body of `_certstream_callback`.  `analyze` is the (possibly
raising) per-domain analysis; an `Except.error` aborts the remaining
iterations, exactly as an exception propagating to the outer handler does. -/
def processDomains (analyze : String → Except Unit (Option Detection)) :
    List String → CallbackState → CallbackState
  | [], st => st
  | d :: rest, st =>
    let st1 : CallbackState := { st with domains_checked := st.domains_checked + 1 }
    match analyze (stripWildcard d) with
    | Except.error _ => st1
    | Except.ok none => processDomains analyze rest st1
    | Except.ok (some det) =>
      processDomains analyze rest { st1 with detections := st1.detections ++ [det] }

/-! ## Deep analyzer data structures (deep_analyzer.py) -/

/-- The `DOMAnalysis` dataclass ( `input_fields` entries are the
(type, name, placeholder) triples the source stores as dicts). -/
structure DOMAnalysis where
  has_login_form : Bool
  has_password_field : Bool
  form_count : Nat
  form_actions : List String
  input_fields : List (String × String × String)
  suspicious_elements : List String
  external_links : List String
  scripts_count : Nat
  meta_title : String
  meta_description : String
  page_text : String
  thai_keywords_found : List String
deriving DecidableEq, Repr

/-- `DOMAnalysis()` defaults. -/
def defaultDOMAnalysis : DOMAnalysis :=
  { has_login_form := false, has_password_field := false, form_count := 0,
    form_actions := [], input_fields := [], suspicious_elements := [],
    external_links := [], scripts_count := 0, meta_title := "",
    meta_description := "", page_text := "", thai_keywords_found := [] }

/-- The `Layer1Result` dataclass. -/
structure Layer1Result where
  score : Int
  factors : List String
  fuzzer_type : String
  is_registered : Bool
  dns_a : List String
deriving DecidableEq, Repr

def defaultLayer1 : Layer1Result :=
  { score := 0, factors := [], fuzzer_type := "", is_registered := false, dns_a := [] }

/-- The `Layer2Result` dataclass (`ssl_info` dict as an association list). -/
structure Layer2Result where
  score : Int
  factors : List String
  screenshot_b64 : Option String
  favicon_url : Option String
  favicon_b64 : Option String
  dom_analysis : Option DOMAnalysis
  page_accessible : Bool
  redirect_chain : List String
  ssl_info : List (String × String)
deriving DecidableEq, Repr

def defaultLayer2 : Layer2Result :=
  { score := 0, factors := [], screenshot_b64 := none, favicon_url := none,
    favicon_b64 := none, dom_analysis := none, page_accessible := false,
    redirect_chain := [], ssl_info := [] }

/-- The `Layer3Result` dataclass. -/
structure Layer3Result where
  score : Int
  verdict : String
  confidence : Rat
  reasoning : String
  recommendation : String
deriving DecidableEq, Repr

def defaultLayer3 : Layer3Result :=
  { score := 0, verdict := "unknown", confidence := 0, reasoning := "",
    recommendation := "monitor" }

/-- The `DeepAnalysisResult` dataclass. -/
structure DeepAnalysisResult where
  domain : String
  target_domain : String
  analysis_time : String
  layer1 : Layer1Result
  layer2 : Layer2Result
  layer3 : Layer3Result
  final_score : Int
  recommendation : String
deriving DecidableEq, Repr

/-! ## Layer 1: Bouncer (deep_analyzer.py `_layer1_bouncer`) -/

/-- The homoglyph-normalization table of `_layer1_bouncer`
(`{'0':'o','1':'l','3':'e','4':'a','5':'s','@':'a'}`), applied as sequential
`str.replace` calls in dict order. -/
def replaceAllChar (s : String) (h r : Char) : String :=
  String.mk (s.data.map fun c => if c == h then r else c)

def bouncerNormalize (s : String) : String :=
  replaceAllChar (replaceAllChar (replaceAllChar (replaceAllChar (replaceAllChar
    (replaceAllChar s '0' 'o') '1' 'l') '3' 'e') '4' 'a') '5' 's') '@' 'a'

/-- The `additions` list local to `_layer1_bouncer`. -/
def bouncerAdditions : List String :=
  ["secure", "login", "official", "verify", "update", "account", "thailand", "th"]

/-- The `suspicious_tlds` list local to `_layer1_bouncer`. -/
def bouncerSuspiciousTlds : List String :=
  [".xyz", ".top", ".club", ".online", ".site", ".info",
   ".click", ".link", ".buzz", ".pw", ".tk", ".ml"]

/-- Python `s.split('.')[0]`. -/
def headLabel (s : String) : String := String.mk (s.data.takeWhile (fun c => !(c == '.')))

/-- `DeepDomainAnalyzer._layer1_bouncer`.  `dns` is the outcome of
`socket.gethostbyname_ex` (`none` = `gaierror`/`timeout`).  The sequential
`result.score += …` / `result.factors.append(…)` / `result.fuzzer_type = …`
statements are flattened: the score is the sum of the triggered increments,
the factors are concatenated in trigger order, and `fuzzer_type` is the last
assignment that fires (`addition` overwrites `homoglyph`; `keyword-match` only
when neither fired). -/
def layer1Bouncer (dns : Option (List String)) (domain target : String) : Layer1Result :=
  let domain_lower := pyLower domain
  let target_lower := pyLower target
  let target_name := headLabel target_lower
  let domain_name := headLabel domain_lower
  let normalized := bouncerNormalize domain_name
  let homoHit := !(normalized == domain_name) && pyContains normalized target_name
  let addHit := bouncerAdditions.find? fun a =>
    pyContains domain_name a && !(pyContains target_name a)
  let targetHit := pyContains domain_name target_name && !(domain_name == target_name)
  let tldHit := bouncerSuspiciousTlds.find? (fun tld => pyEnds domain_lower tld)
  let hyphHit := 2 ≤ domain_name.data.count '-'
  let longHit := 25 < domain_name.data.length
  { score := (if dns.isSome then 20 else 0) + (if homoHit then 30 else 0)
      + (if addHit.isSome then 25 else 0) + (if targetHit then 20 else 0)
      + (if tldHit.isSome then 20 else 0) + (if hyphHit then 10 else 0)
      + (if longHit then 10 else 0),
    factors := (if dns.isSome then ["Domain is registered and resolves"] else [])
      ++ (if homoHit then ["Uses lookalike characters (homoglyph)"] else [])
      ++ (match addHit with
          | some a => ["Uses deceptive addition: \x27" ++ a ++ "\x27"]
          | none => [])
      ++ (if targetHit then ["Contains target brand: \x27" ++ target_name ++ "\x27"] else [])
      ++ (match tldHit with | some tld => ["Suspicious TLD: " ++ tld] | none => [])
      ++ (if hyphHit then ["Multiple hyphens in domain"] else [])
      ++ (if longHit then ["Unusually long domain name"] else []),
    fuzzer_type :=
      if addHit.isSome then "addition"
      else if homoHit then "homoglyph"
      else if targetHit then "keyword-match"
      else "",
    is_registered := dns.isSome,
    dns_a := dns.getD [] }

/-! ## Layer 3: Judge (deep_analyzer.py `_layer3_judge`) -/

/-- The `high_risk_indicators` count of `_layer3_judge` (the source builds it
with sequential `+=`; the DOM checks are guarded by `l2.page_accessible` and a
non-`None` `dom_analysis`). -/
def highRiskIndicators (l1 : Layer1Result) (l2 : Layer2Result) : Nat :=
  (if l1.is_registered then 1 else 0)
  + (if pyContains l1.fuzzer_type "homoglyph" then 2 else 0)
  + (if l1.factors.any (fun f => pyContains f "TLD") then 1 else 0)
  + (if l2.page_accessible then
      match l2.dom_analysis with
      | some d =>
        (if d.has_login_form then 2 else 0)
        + (if !d.thai_keywords_found.isEmpty then 2 else 0)
        + (if d.has_password_field then 2 else 0)
      | none => 0
    else 0)

/-- The `reasoning_parts` list of `_layer3_judge`, in source order. -/
def judgeReasoningParts (l1 : Layer1Result) (l2 : Layer2Result) : List String :=
  (if l1.is_registered then ["Domain is actively registered"] else [])
  ++ (if pyContains l1.fuzzer_type "homoglyph" then
        ["Uses lookalike characters to deceive users"] else [])
  ++ (if l1.factors.any (fun f => pyContains f "TLD") then
        ["Uses suspicious top-level domain"] else [])
  ++ (if l2.page_accessible then
      match l2.dom_analysis with
      | some d =>
        (if d.has_login_form then ["Page contains credential-harvesting form"] else [])
        ++ (if !d.thai_keywords_found.isEmpty then
              ["Contains Thai phishing language patterns"] else [])
        ++ (if d.has_password_field then ["Requests password input"] else [])
      | none => []
    else [])

/-- The verdict / recommendation / confidence branch of `_layer3_judge` as a
function of `high_risk_indicators`. -/
def judgeVerdict (n : Nat) : String × String × Rat :=
  if 4 ≤ n then ("phishing", "takedown", min 0.95 (0.6 + (n : Rat) * 0.08))
  else if 2 ≤ n then ("suspicious", "investigate", min 0.85 (0.5 + (n : Rat) * 0.1))
  else if 1 ≤ n then ("suspicious", "monitor", 0.5)
  else ("unknown", "monitor", 0.3)

/-- `DeepDomainAnalyzer._layer3_judge`.  (The source also computes
`total_score = l1.score + l2.score`, which is never used.) -/
def layer3Judge (l1 : Layer1Result) (l2 : Layer2Result) : Layer3Result :=
  let n := highRiskIndicators l1 l2
  let reasoning_parts := judgeReasoningParts l1 l2
  let v := judgeVerdict n
  { score := (n : Int) * 10,
    verdict := v.1,
    confidence := v.2.2,
    recommendation := v.2.1,
    reasoning :=
      if reasoning_parts.isEmpty then "Insufficient evidence for conclusive determination."
      else "Analysis indicates: " ++ joinSep "; " reasoning_parts ++ "." }

/-- Python `int(q)` on a float value (truncation toward zero). -/
def pyInt (q : Rat) : Int := if q < 0 then -Rat.floor (-q) else Rat.floor q

/-- `DeepDomainAnalyzer._calculate_final_score`:
`min(100, int(l1*0.3 + l2*0.4 + l3*0.3))`. -/
def calculateFinalScore (l1 : Layer1Result) (l2 : Layer2Result) (l3 : Layer3Result) : Int :=
  min 100 (pyInt ((l1.score : Rat) * 0.3 + (l2.score : Rat) * 0.4 + (l3.score : Rat) * 0.3))

/-- `DeepDomainAnalyzer._get_recommendation`. -/
def getRecommendation (score : Int) : String :=
  if 80 ≤ score then "takedown"
  else if 60 ≤ score then "investigate"
  else if 40 ≤ score then "monitor"
  else "safe"

/-- `DeepDomainAnalyzer.analyze`.  `dns` feeds the Bouncer; `detective` is the
value `await _layer2_detective(...)` would produce (network-dependent, so a
parameter here).  As in the source, Layer 2 runs only when the Bouncer saw the
domain resolve (and a screenshot or DOM pass was requested), while the Judge
and the final score are always computed. -/
def analyze (dns : Option (List String)) (detective : Layer2Result)
    (domain target_domain analysis_time : String)
    (include_screenshot include_dom : Bool) : DeepAnalysisResult :=
  let l1 := layer1Bouncer dns domain target_domain
  let l2 := if l1.is_registered && (include_screenshot || include_dom)
            then detective else defaultLayer2
  let l3 := layer3Judge l1 l2
  let fs := calculateFinalScore l1 l2 l3
  { domain := domain, target_domain := target_domain, analysis_time := analysis_time,
    layer1 := l1, layer2 := l2, layer3 := l3,
    final_score := fs, recommendation := getRecommendation fs }

/-! ## Spec-side definitions (for refinement comparisons) -/

/-- Modelled from the spec: the Judge verdict table of §4.8 as claim C2
states it — n ≥ 4 ⇒ (phishing, takedown, min(0.95, 0.60 + 0.08·n));
n ∈ {2,3} ⇒ (suspicious, investigate, min(0.85, 0.50 + 0.10·n));
n = 1 ⇒ (suspicious, monitor, 0.50); n = 0 ⇒ (unknown, monitor, 0.30). -/
def judgeTableSpec (n : Nat) : String × String × Rat :=
  if 4 ≤ n then ("phishing", "takedown", min 0.95 (0.60 + 0.08 * (n : Rat)))
  else if n = 2 ∨ n = 3 then ("suspicious", "investigate", min 0.85 (0.50 + 0.10 * (n : Rat)))
  else if n = 1 then ("suspicious", "monitor", 0.50)
  else ("unknown", "monitor", 0.30)

/-- A label restricted to the domain-legal alphabet `[a-z0-9-]` (the alphabet
`_bitsquatting` filters against). -/
def isLegalLabel (s : String) : Bool := s.data.all (fun c => decide (c ∈ legalChars))

/-- A per-SAN analysis oracle that raises on the SAN "boom" and finds nothing
elsewhere (used to exercise the `_certstream_callback` loop). -/
def demoOracle : String → Except Unit (Option Detection) := fun s =>
  if s == "boom" then Except.error () else Except.ok none

/-- A per-SAN analysis oracle that raises on "boom" and produces a Detection
for every other SAN. -/
def demoOracle2 : String → Except Unit (Option Detection) := fun s =>
  if s == "boom" then Except.error ()
  else Except.ok (some { domain := s, target := "kbank", fuzzer_type := "keyword-match",
                         risk_score := 85, risk_factors := [], detection_time := "",
                         certificate_issuer := "", all_domains := [] })

/-! ## Helper lemmas -/

theorem find?_append_some {α : Type} {p : α → Bool} {l₁ l₂ : List α} {v : α}
    (h : l₁.find? p = some v) : (l₁ ++ l₂).find? p = some v := by
  induction l₁ with
  | nil => simp at h
  | cons a l ih =>
    by_cases hpa : p a = true
    · rw [List.find?_cons_of_pos _ hpa] at h
      rw [List.cons_append, List.find?_cons_of_pos _ hpa]
      exact h
    · rw [List.find?_cons_of_neg _ hpa] at h
      rw [List.cons_append, List.find?_cons_of_neg _ hpa]
      exact ih h

theorem find?_append_none {α : Type} {p : α → Bool} {l₁ l₂ : List α}
    (h : l₁.find? p = none) : (l₁ ++ l₂).find? p = l₂.find? p := by
  induction l₁ with
  | nil => rfl
  | cons a l ih =>
    by_cases hpa : p a = true
    · rw [List.find?_cons_of_pos _ hpa] at h; exact absurd h (by simp)
    · rw [List.find?_cons_of_neg _ hpa] at h
      rw [List.cons_append, List.find?_cons_of_neg _ hpa]
      exact ih h

theorem findCongr {α : Type} {p q : α → Bool} {l : List α}
    (h : ∀ x ∈ l, p x = q x) : l.find? p = l.find? q := by
  induction l with
  | nil => rfl
  | cons a t ih =>
    have ha := h a (List.mem_cons_self a t)
    by_cases hpa : p a = true
    · rw [List.find?_cons_of_pos _ hpa, List.find?_cons_of_pos _ (ha ▸ hpa)]
    · rw [List.find?_cons_of_neg _ hpa, List.find?_cons_of_neg _ (ha ▸ hpa)]
      exact ih (fun x hx => h x (List.mem_cons_of_mem a hx))

theorem dbFind_insertPerm_some {db : List DBEntry} {t label : String}
    {p : String × String} {v : String × String}
    (h : dbFind db label = some v) : dbFind (insertPerm db t p) label = some v := by
  unfold insertPerm
  split
  · exact h
  · unfold dbFind at h ⊢
    cases hf : db.find? (fun e => e.1 == label) with
    | none => rw [hf] at h; simp at h
    | some e =>
      rw [hf] at h
      rw [find?_append_some hf]
      exact h

theorem dbFind_insertPerm_none {db : List DBEntry} {t label : String} {p : String × String}
    (h : dbFind db label = none) (hp : (p.1 == label) = false) :
    dbFind (insertPerm db t p) label = none := by
  unfold insertPerm
  split
  · exact h
  · unfold dbFind at h ⊢
    cases hf : db.find? (fun e => e.1 == label) with
    | some e => rw [hf] at h; simp at h
    | none =>
      rw [find?_append_none hf]
      simp [List.find?_cons, hp]

theorem dbFind_addTarget_some {pairs : List (String × String)} :
    ∀ {db : List DBEntry} {t label : String} {v : String × String},
      dbFind db label = some v → dbFind (addTarget db t pairs) label = some v := by
  induction pairs with
  | nil => intro db t label v h; exact h
  | cons p ps ih =>
    intro db t label v h
    exact ih (dbFind_insertPerm_some h)

theorem dbFind_addTarget_none {pairs : List (String × String)} :
    ∀ {db : List DBEntry} {t label : String},
      dbFind db label = none → pairs.any (fun p => p.1 == label) = false →
      dbFind (addTarget db t pairs) label = none := by
  induction pairs with
  | nil => intro db t label h _; exact h
  | cons p ps ih =>
    intro db t label h hany
    rw [List.any_cons, Bool.or_eq_false_iff] at hany
    exact ih (dbFind_insertPerm_none h hany.1) hany.2

theorem dbFind_addTarget_mem {pairs : List (String × String)} :
    ∀ {db : List DBEntry} {t label : String},
      dbFind db label = none → pairs.any (fun p => p.1 == label) = true →
      ∃ k, dbFind (addTarget db t pairs) label = some (t, k) := by
  induction pairs with
  | nil => intro db t label _ hany; simp at hany
  | cons p ps ih =>
    intro db t label h hany
    by_cases hp : (p.1 == label) = true
    · have hlab : p.1 = label := by simpa using hp
      have hfnone : db.find? (fun e => e.1 == label) = none := by
        unfold dbFind at h
        cases hf : db.find? (fun e => e.1 == label) with
        | none => rfl
        | some e => rw [hf] at h; simp at h
      have hdbany : db.any (fun e => e.1 == p.1) = false := by
        rw [List.any_eq_false]
        intro e he
        have := List.find?_eq_none.mp hfnone e he
        simpa [hlab] using this
      have hnew : dbFind (insertPerm db t p) label = some (t, p.2) := by
        unfold insertPerm
        rw [hdbany]
        simp only [Bool.false_eq_true, if_false]
        unfold dbFind
        rw [find?_append_none hfnone]
        simp [List.find?_cons, hp]
      refine ⟨p.2, ?_⟩
      have hstep : addTarget db t (p :: ps) = addTarget (insertPerm db t p) t ps := rfl
      rw [hstep]
      exact dbFind_addTarget_some hnew
    · have hp2 : (p.1 == label) = false := by simpa using hp
      have hany2 : ps.any (fun q => q.1 == label) = true := by
        rw [List.any_cons, hp2] at hany
        simpa using hany
      exact ih (dbFind_insertPerm_none h hp2) hany2

theorem dbFind_fold_some {inner : String → List (String × String)} {label : String}
    {v : String × String} :
    ∀ (ts : List String) {db : List DBEntry}, dbFind db label = some v →
      dbFind (ts.foldl (fun db t => addTarget db t (inner t)) db) label = some v := by
  intro ts
  induction ts with
  | nil => intro db h; exact h
  | cons t ts ih => intro db h; exact ih (dbFind_addTarget_some h)

theorem dbFind_foldTargets (inner : String → List (String × String)) (label : String) :
    ∀ (ts : List String) (db : List DBEntry), dbFind db label = none →
      (dbFind (ts.foldl (fun db t => addTarget db t (inner t)) db) label).map (fun v => v.1)
        = ts.find? (fun t => (inner t).any (fun p => p.1 == label)) := by
  intro ts
  induction ts with
  | nil => intro db h; rw [List.foldl_nil, h]; rfl
  | cons t ts ih =>
    intro db h
    rw [List.foldl_cons]
    by_cases hany : (inner t).any (fun p => p.1 == label) = true
    · obtain ⟨k, hk⟩ := dbFind_addTarget_mem h hany
      rw [dbFind_fold_some ts hk]
      simp [List.find?, hany]
    · have hany2 : (inner t).any (fun p => p.1 == label) = false := by
        rwa [Bool.not_eq_true] at hany
      rw [ih _ (dbFind_addTarget_none h hany2)]
      simp [List.find?, hany2]

/-- The brand component stored by `_build_database` for a label is the first
target in configuration order one of whose generated pairs carries that label,
whatever per-target set-iteration order `inner` is used. -/
theorem dbFind_buildDatabase (inner : String → List (String × String)) (label : String) :
    (dbFind (buildDatabase inner) label).map (fun v => v.1)
      = TargetConfig.getAllTargets.find? (fun t => (inner t).any (fun p => p.1 == label)) :=
  dbFind_foldTargets inner label TargetConfig.getAllTargets [] rfl

theorem keys_insertPerm_nodup {db : List DBEntry} {t : String} {p : String × String}
    (h : ((db.map (fun e => e.1)).Nodup)) :
    ((insertPerm db t p).map (fun e => e.1)).Nodup := by
  unfold insertPerm
  split
  · exact h
  next hany =>
    rw [List.map_append]
    rw [List.nodup_append]
    refine ⟨h, List.nodup_singleton _, ?_⟩
    intro x hx hx2
    simp only [List.map_cons, List.map_nil, List.mem_singleton] at hx2
    subst hx2
    rw [List.mem_map] at hx
    obtain ⟨e, he, hfst⟩ := hx
    exact hany (List.any_eq_true.mpr ⟨e, he, by simp [hfst]⟩)

theorem keys_addTarget_nodup {pairs : List (String × String)} :
    ∀ {db : List DBEntry} {t : String}, ((db.map (fun e => e.1)).Nodup) →
      ((addTarget db t pairs).map (fun e => e.1)).Nodup := by
  induction pairs with
  | nil => intro db t h; exact h
  | cons p ps ih => intro db t h; exact ih (keys_insertPerm_nodup h)

theorem keys_fold_nodup {inner : String → List (String × String)} :
    ∀ (ts : List String) {db : List DBEntry}, ((db.map (fun e => e.1)).Nodup) →
      (((ts.foldl (fun db t => addTarget db t (inner t)) db).map (fun e => e.1)).Nodup) := by
  intro ts
  induction ts with
  | nil => intro db h; exact h
  | cons t ts ih => intro db h; exact ih (keys_addTarget_nodup h)

theorem splits_decomp : ∀ (l : List Char) (q : List Char × Char × List Char),
    q ∈ splits l → q.1 ++ q.2.1 :: q.2.2 = l := by
  intro l
  induction l with
  | nil => intro q hq; simp [splits] at hq
  | cons c cs ih =>
    intro q hq
    simp only [splits, List.mem_cons, List.mem_map] at hq
    rcases hq with rfl | ⟨r, hr, rfl⟩
    · rfl
    · have hr2 := ih r hr
      simpa using hr2

/-- Every `_bitsquatting` output consists of characters of the input plus at
most one substituted character drawn from the legal alphabet: the generator
filters the flipped character against `[a-z0-9-]`. -/
theorem bitsquatting_alphabet (s : String) :
    (bitsquatting s).all
      (fun v => v.data.all (fun c => decide (c ∈ legalChars) || decide (c ∈ s.data)))
      = true := by
  rw [List.all_eq_true]
  intro v hv
  rw [List.all_eq_true]
  intro c hc
  simp only [bitsquatting, List.mem_flatMap, List.mem_filterMap] at hv
  obtain ⟨q, hq, m, _, hif⟩ := hv
  split at hif
  case isFalse => exact absurd hif (by simp)
  case isTrue hleg =>
    have hv2 : String.mk (q.1 ++ Char.ofNat (q.2.1.toNat ^^^ m) :: q.2.2) = v := by
      simpa using hif
    have hdata : v.data = q.1 ++ Char.ofNat (q.2.1.toNat ^^^ m) :: q.2.2 := by
      rw [← hv2]
    rw [hdata] at hc
    have hdec := splits_decomp s.data q hq
    simp only [Bool.or_eq_true, decide_eq_true_eq]
    rcases List.mem_append.mp hc with hpre | hrest
    · right; rw [← hdec]; exact List.mem_append_left _ hpre
    · rcases List.mem_cons.mp hrest with hb | hpost
      · left
        subst hb
        simpa using hleg
      · right; rw [← hdec]; exact List.mem_append_right _ (List.mem_cons_of_mem _ hpost)

/-- The verdict branch of `_layer3_judge` agrees pointwise with the verdict
table of the spec. -/
theorem judgeVerdict_eq_spec (n : Nat) : judgeVerdict n = judgeTableSpec n := by
  unfold judgeVerdict judgeTableSpec
  split_ifs <;> first
    | rfl
    | omega
    | norm_num [Prod.mk.injEq, mul_comm]

/-! ## Claims -/

/-- Claim C1: for the input fqdn `kbank-secure.xyz` (brand set containing
`kbank`, fqdn not whitelisted), `_analyze_domain` produces a Detection with
target `kbank`, rule kind `keyword-match` and risk score exactly 85
(base 25 + keyword bonus 20 + suspicious TLD 25 + security keyword 15; one
hyphen, so the multiple-hyphen factor does not fire), which is high risk
(score ≥ 70) — for every permutation database and certificate context. -/
theorem C1_keyword_match_score (db : List DBEntry) (t iss : String) (sans : List String) :
    analyzeDomain db "kbank-secure.xyz" t iss sans =
      some { domain := "kbank-secure.xyz", target := "kbank",
             fuzzer_type := "keyword-match", risk_score := 85,
             risk_factors := ["Contains target keyword: kbank",
                              "Typosquatting: keyword-match",
                              "Suspicious TLD: .xyz",
                              "Security keyword: secure"],
             detection_time := t, certificate_issuer := iss, all_domains := sans }
    ∧ ∃ d, analyzeDomain db "kbank-secure.xyz" t iss sans = some d ∧ isHighRisk d = true := by
  refine ⟨rfl, ⟨_, rfl, rfl⟩⟩

/-- Claim C2: for every pair of Layer-1/Layer-2 results, `_layer3_judge` with
`n` counted high-risk indicators produces exactly the verdict, recommendation
and confidence of the spec's table (phishing/takedown with
min(0.95, 0.60+0.08n) for n ≥ 4; suspicious/investigate with
min(0.85, 0.50+0.10n) for n ∈ {2,3}; suspicious/monitor with 0.50 for n = 1;
unknown/monitor with 0.30 for n = 0), and its score contribution is 10·n. -/
theorem C2_judge_verdict_table (l1 : Layer1Result) (l2 : Layer2Result) :
    ((layer3Judge l1 l2).verdict, (layer3Judge l1 l2).recommendation,
        (layer3Judge l1 l2).confidence)
      = judgeTableSpec (highRiskIndicators l1 l2)
    ∧ (layer3Judge l1 l2).score = (highRiskIndicators l1 l2 : Int) * 10 := by
  unfold layer3Judge
  refine ⟨?_, rfl⟩
  dsimp only
  rw [judgeVerdict_eq_spec]

/-- Claim C3, counterexample: on the unregistered domain `kb4nk.xyz` (target
`kbank`) the returned result's Layer2Result is the untouched default, but its
Layer3Result is NOT an untouched default — the Judge still runs (homoglyph +2,
suspicious TLD +1 give score 30, verdict "suspicious"), and the final score 24
includes the Judge's contribution, refuting "both Layer 2 and Layer 3 are
skipped". -/
theorem C3_counterexample :
    (analyze none defaultLayer2 "kb4nk.xyz" "kbank" "t" true true).layer1.is_registered = false
    ∧ (analyze none defaultLayer2 "kb4nk.xyz" "kbank" "t" true true).layer2 = defaultLayer2
    ∧ (analyze none defaultLayer2 "kb4nk.xyz" "kbank" "t" true true).layer3 ≠ defaultLayer3
    ∧ (analyze none defaultLayer2 "kb4nk.xyz" "kbank" "t" true true).layer3.score = 30
    ∧ (analyze none defaultLayer2 "kb4nk.xyz" "kbank" "t" true true).layer3.verdict
        = "suspicious"
    ∧ (analyze none defaultLayer2 "kb4nk.xyz" "kbank" "t" true true).final_score = 24 := by
  refine ⟨rfl, rfl, by decide, rfl, rfl, by with_unfolding_all decide⟩

set_option maxHeartbeats 1000000 in
/-- Claim C3 (amended): when DNS resolution fails, Layer 2 is skipped — the
result's Layer2Result is the untouched default — but Layer 3 is not: the Judge
runs on (Layer 1, default Layer 2) and contributes to the result. -/
theorem C3_amended_unregistered_skips_layer2_only (detective : Layer2Result)
    (domain target t : String) (s d : Bool) :
    (analyze none detective domain target t s d).layer1 = layer1Bouncer none domain target
    ∧ (analyze none detective domain target t s d).layer2 = defaultLayer2
    ∧ (analyze none detective domain target t s d).layer3
        = layer3Judge (layer1Bouncer none domain target) defaultLayer2 := by
  have hreg : (layer1Bouncer none domain target).is_registered = false := rfl
  simp only [analyze, hreg, Bool.false_and, Bool.false_eq_true, if_false]
  exact ⟨trivial, trivial, trivial⟩

/-- Claim C4, counterexample: the Bouncer applies no clamp — on the registered
domain `kbank-secure-4u-aaaaaaaaaaaa.xyz` against brand `kbank` all seven
factors fire (20+30+25+20+20+10+10) and the returned partial score is 135,
above 100. -/
theorem C4_counterexample :
    (layer1Bouncer (some ["1.2.3.4"]) "kbank-secure-4u-aaaaaaaaaaaa.xyz" "kbank").score = 135
    ∧ ¬ (layer1Bouncer (some ["1.2.3.4"]) "kbank-secure-4u-aaaaaaaaaaaa.xyz" "kbank").score
        ≤ 100 := by
  decide

/-- Claim C4 (amended): for every DNS outcome, candidate fqdn and target
brand, the Bouncer's partial score lies between 0 and 135 (the sum of all
seven factor weights); the source never clamps it to 100. -/
theorem C4_amended_bouncer_score_range (dns : Option (List String)) (domain target : String) :
    0 ≤ (layer1Bouncer dns domain target).score
    ∧ (layer1Bouncer dns domain target).score ≤ 135 := by
  unfold layer1Bouncer
  dsimp only
  constructor <;> split_ifs <;> decide

/-- Claim C5, counterexample: `generate_all` keeps each (label, rule) pair, so
the same variant label can appear under two different rule kinds: for brand
`uob`, the label `u0b` is generated both by `homoglyph` (o→0) and by
`replacement` (0 is a QWERTY neighbour of o). -/
theorem C5_counterexample :
    ("u0b", "homoglyph") ∈ generateAll "uob"
    ∧ ("u0b", "replacement") ∈ generateAll "uob"
    ∧ ("homoglyph" : String) ≠ "replacement" := by
  refine ⟨by decide, by decide, by decide⟩

/-- Claim C5 (amended): the generated set may contain the same variant label
under several rule kinds; uniqueness of the attributed (brand, rule) is
established only by the permutation database, whose keys are distinct — one
entry per variant label, the first encountered in the (unspecified) set
iteration order — for every per-target iteration order `inner`. -/
theorem C5_amended_database_keys_unique (inner : String → List (String × String)) :
    ((buildDatabase inner).map (fun e => e.1)).Nodup := by
  unfold buildDatabase
  exact keys_fold_nodup TargetConfig.getAllTargets List.nodup_nil

set_option maxRecDepth 8192 in
/-- Claim C6, counterexample: the label `sb` is generated both from `scb` and
from `gsb` (omission), yet the database attributes it to `scb` — the brand
that comes first in the configured target order — and not to the
lexicographically first brand `gsb`. -/
theorem C6_counterexample :
    (dbFind (buildDatabase generateAll) "sb").map (fun v => v.1) = some "scb"
    ∧ (generateAll "scb").any (fun p => p.1 == "sb") = true
    ∧ (generateAll "gsb").any (fun p => p.1 == "sb") = true
    ∧ ("gsb" : String) < "scb"
    ∧ ("gsb" : String) ≠ "scb" := by
  refine ⟨?_, by decide, by decide, by with_unfolding_all decide, by decide⟩
  rw [dbFind_buildDatabase]
  decide

set_option maxRecDepth 8192 in
/-- Claim C6 (amended): when several protected brands could claim a variant
label, `_build_database` deterministically attributes it to the brand that
comes first in configuration order (`thai_banks ++ thai_gov ++ thai_ewallet`),
not to the lexicographically first brand: `sb` (claimed by both `scb` and
`gsb`) maps to `scb`, for every per-target set-iteration order with the same
members as `generate_all`. -/
theorem C6_amended_config_order_wins (inner : String → List (String × String))
    (h : ∀ t p, p ∈ inner t ↔ p ∈ generateAll t) :
    (dbFind (buildDatabase inner) "sb").map (fun v => v.1) = some "scb" := by
  rw [dbFind_buildDatabase]
  have hpred : ∀ t ∈ TargetConfig.getAllTargets,
      ((inner t).any (fun p => p.1 == "sb")) = ((generateAll t).any (fun p => p.1 == "sb")) := by
    intro t _
    rw [Bool.eq_iff_iff]
    simp only [List.any_eq_true]
    constructor
    · rintro ⟨p, hp, hp2⟩; exact ⟨p, (h t p).mp hp, hp2⟩
    · rintro ⟨p, hp, hp2⟩; exact ⟨p, (h t p).mpr hp, hp2⟩
  rw [findCongr hpred]
  decide

/-- Claim C6, witness for the amended theorem at the concrete iteration order
`generateAll` itself. -/
theorem C6_amended_config_order_wins_witness :
    (dbFind (buildDatabase generateAll) "sb").map (fun v => v.1) = some "scb" :=
  C6_amended_config_order_wins generateAll (fun _ _ => Iff.rfl)

/-- Claim C7: for every whitelisted fqdn, `_analyze_domain` produces no
Detection, whatever the permutation database and certificate context contain
(the whitelist test short-circuits before any matching work). -/
theorem C7_whitelist_dominance (db : List DBEntry) (domain t iss : String)
    (sans : List String) (h : isWhitelisted domain = true) :
    analyzeDomain db domain t iss sans = none := by
  unfold analyzeDomain
  rw [h]
  rfl

/-- Claim C7, witness at the whitelisted fqdn `kbank.com`. -/
theorem C7_whitelist_dominance_witness :
    isWhitelisted "kbank.com" = true ∧ analyzeDomain [] "kbank.com" "t" "" [] = none :=
  ⟨by decide, C7_whitelist_dominance [] "kbank.com" "t" "" [] (by decide)⟩

/-- Claim C8, counterexample: the `try` of `_certstream_callback` wraps the
whole SAN loop, so an exception on one SAN aborts the rest of the
certificate's SAN list: with an analysis that raises on "boom" and would
detect "good", processing ["boom", "good"] checks only one domain and records
no detection for "good". -/
theorem C8_counterexample :
    (processDomains demoOracle2 ["boom", "good"] ⟨0, []⟩).detections = []
    ∧ (processDomains demoOracle2 ["boom", "good"] ⟨0, []⟩).domains_checked = 1
    ∧ demoOracle2 "good"
        = Except.ok (some { domain := "good", target := "kbank",
                            fuzzer_type := "keyword-match", risk_score := 85,
                            risk_factors := [], detection_time := "",
                            certificate_issuer := "", all_domains := [] }) :=
  ⟨rfl, rfl, rfl⟩

/-- Claim C8 (amended): an exception while processing one SAN is caught at the
certificate level: every SAN before it is processed, the failing SAN is
counted, and the remaining SANs of the same certificate are not processed at
all (the state is whatever the prefix produced, plus one domain check). -/
theorem C8_amended_exception_aborts_certificate
    (analyze : String → Except Unit (Option Detection)) (d : String) (post : List String)
    (hd : analyze (stripWildcard d) = Except.error ()) :
    ∀ (pre : List String) (st : CallbackState),
      (∀ x ∈ pre, ∃ v, analyze (stripWildcard x) = Except.ok v) →
      processDomains analyze (pre ++ d :: post) st =
        { processDomains analyze pre st with
          domains_checked := (processDomains analyze pre st).domains_checked + 1 } := by
  intro pre
  induction pre with
  | nil =>
    intro st _
    simp only [List.nil_append, processDomains]
    rw [hd]
  | cons x xs ih =>
    intro st hpre
    obtain ⟨v, hv⟩ := hpre x (List.mem_cons_self x xs)
    have hxs : ∀ y ∈ xs, ∃ w, analyze (stripWildcard y) = Except.ok w :=
      fun y hy => hpre y (List.mem_cons_of_mem x hy)
    simp only [List.cons_append, processDomains]
    rw [hv]
    cases v with
    | none => exact ih _ hxs
    | some det => exact ih _ hxs

/-- Claim C8, witness: concrete instance of the amended theorem with
pre = ["a"], failing SAN "boom", post = ["z"]. -/
theorem C8_amended_exception_aborts_certificate_witness :
    processDomains demoOracle (["a"] ++ "boom" :: ["z"]) ⟨0, []⟩ =
      { processDomains demoOracle ["a"] ⟨0, []⟩ with
        domains_checked := (processDomains demoOracle ["a"] ⟨0, []⟩).domains_checked + 1 } :=
  C8_amended_exception_aborts_certificate demoOracle "boom" ["z"] rfl ["a"] ⟨0, []⟩
    (by intro x hx
        rw [List.mem_singleton] at hx
        subst hx
        exact ⟨none, rfl⟩)

/-- Claim C9: for every brand label `b` (normalized, as `DomainFuzzer.__init__`
leaves every configured lowercase label unchanged), the generated permutation
set never contains `b` itself and every generated variant is non-empty. -/
theorem C9_self_exclusion (b : String) (h : fuzzTarget b = b) :
    (generateAll b).all (fun p => !(p.1 == b) && !(p.1 == "")) = true := by
  rw [List.all_eq_true]
  intro p hp
  unfold generateAll at hp
  rw [h] at hp
  rw [List.mem_filter] at hp
  have h2 := hp.2
  rw [Bool.and_eq_true] at h2 ⊢
  exact ⟨h2.2, h2.1⟩

/-- Claim C9, witness at the brand label `kbank`. -/
theorem C9_self_exclusion_witness :
    fuzzTarget "kbank" = "kbank"
    ∧ (generateAll "kbank").all (fun p => !(p.1 == "kbank") && !(p.1 == "")) = true :=
  ⟨rfl, C9_self_exclusion "kbank" rfl⟩

/-- Claim C10: the homoglyph generator emits variants outside the domain-legal
alphabet — `kb@nk` (from `kbank`, a→@) is generated under rule `homoglyph` and
is not a legal label; only `_bitsquatting` filters its substituted character
to `[a-z0-9-]` (every character of its outputs is legal or came from the
input); and the permutation database therefore contains `kb@nk`, a label that
can never occur in a valid FQDN, attributed to `kbank`. -/
theorem C10_homoglyphs_escape_alphabet :
    ("kb@nk", "homoglyph") ∈ generateAll "kbank"
    ∧ isLegalLabel "kb@nk" = false
    ∧ (∀ s : String, (bitsquatting s).all
        (fun v => v.data.all (fun c => decide (c ∈ legalChars) || decide (c ∈ s.data)))
        = true)
    ∧ (dbFind (buildDatabase generateAll) "kb@nk").map (fun v => v.1) = some "kbank" := by
  refine ⟨by decide, by decide, bitsquatting_alphabet, ?_⟩
  rw [dbFind_buildDatabase]
  decide

end Scamper
